import Mathlib

/-!
A shallow embedding, in Lean 4, of the credential-acquisition engine of the
`latchkey` repository: the credential models and their discriminated
serialization (`latchkey/api_credentials.py`, `latchkey/api_credential_store.py`),
the persistent credential store operations, the service registry
(`latchkey/registry.py`), the per-service traffic observers
(`latchkey/services/{slack,discord,notion,dropbox}.py`), and the login
session state machine of `latchkey/services/base.py`.

Python dictionaries are embedded as association lists (first binding wins on
lookup, in-place replacement on update, as for insertion-ordered `dict`);
JSON values as an inductive `Json` type; machine state mutated from callbacks
as explicit state passing; exceptions as `Except` / explicit result sums.
-/

namespace Latchkey

/-- JSON values, as stored in the credential-store document
(`dict[str, Any]` loaded by `json.loads`). Numbers are restricted to
integers, which covers every value this program writes. -/
inductive Json where
  | null : Json
  | bool (b : Bool) : Json
  | num (n : Int) : Json
  | str (s : String) : Json
  | arr (items : List Json) : Json
  | obj (fields : List (String × Json)) : Json
deriving Repr

/-- Python `dict.get` on the embedded association list: the first binding for
the key, if any. -/
def lookupField : List (String × Json) → String → Option Json
  | [], _ => none
  | (k, v) :: rest, key => if k = key then some v else lookupField rest key

/-- Python `dict[key] = value`: replace the binding in place when the key is
present, append it otherwise (insertion-ordered `dict` semantics). -/
def dictSet : List (String × Json) → String → Json → List (String × Json)
  | [], key, value => [(key, value)]
  | (k, v) :: rest, key, value =>
    if k = key then (key, value) :: rest else (k, v) :: dictSet rest key value

/-- Python `del data[key]`: remove the binding for the key. -/
def dictDelete (data : List (String × Json)) (key : String) : List (String × Json) :=
  data.filter (fun kv => kv.1 != key)

/-- The apostrophe character, used by Python `repr` of strings. -/
def pyQuote : String := String.singleton (Char.ofNat 39)

/-- Opening brace, used by Python `repr` of dicts. -/
def pyLbrace : String := String.singleton (Char.ofNat 123)

/-- Closing brace, used by Python `repr` of dicts. -/
def pyRbrace : String := String.singleton (Char.ofNat 125)

mutual

/-- Python `repr` of a JSON value (the form `str` uses for values nested in
lists and dicts). -/
def pyRepr : Json → String
  | .null => "None"
  | .bool true => "True"
  | .bool false => "False"
  | .num n => toString n
  | .str s => pyQuote ++ s ++ pyQuote
  | .arr items => "[" ++ ", ".intercalate (pyReprList items) ++ "]"
  | .obj fields => pyLbrace ++ ", ".intercalate (pyReprFields fields) ++ pyRbrace

/-- Function `pyRepr` mapped over a list of values. -/
def pyReprList : List Json → List String
  | [] => []
  | j :: rest => pyRepr j :: pyReprList rest

/-- Function `pyRepr` mapped over the fields of a dict. -/
def pyReprFields : List (String × Json) → List String
  | [] => []
  | (k, v) :: rest => (pyQuote ++ k ++ pyQuote ++ ": " ++ pyRepr v) :: pyReprFields rest

end

/-- Python `str()` of a JSON value: identity on strings, `repr` on
containers. -/
def pyToStr : Json → String
  | .str s => s
  | .null => "None"
  | .bool true => "True"
  | .bool false => "False"
  | .num n => toString n
  | .arr items => pyRepr (.arr items)
  | .obj fields => pyRepr (.obj fields)

/-- The credential models of `latchkey/api_credentials.py` plus the
service-specific composites registered in the store's discriminated union
(`NotionApiCredentials`, `SlackApiCredentials`; shaped as the
`NotionCredentials` / `SlackCredentials` classes of
`latchkey/services/{notion,slack}.py`: a `token`, and for Slack also a
`d_cookie`). Each class carries a constant `object_type` discriminator
string, never overridden by the program, modelled by
`ApiCredentials.object_type` below. -/
inductive ApiCredentials where
  | authorizationBearer (token : String) : ApiCredentials
  | authorizationBare (token : String) : ApiCredentials
  | notionApiCredentials (token : String) : ApiCredentials
  | slackApiCredentials (token : String) (d_cookie : String) : ApiCredentials
deriving DecidableEq, Repr

/-- The `object_type` class attribute of each credential model. -/
def ApiCredentials.object_type : ApiCredentials → String
  | .authorizationBearer _ => "authorization_bearer"
  | .authorizationBare _ => "authorization_bare"
  | .notionApiCredentials _ => "notion"
  | .slackApiCredentials _ _ => "slack"

/-- Pydantic `BaseModel.model_dump`: all fields, by name, in declaration order
(`object_type` first, then the data fields). -/
def ApiCredentials.model_dump : ApiCredentials → Json
  | .authorizationBearer token =>
    .obj [("object_type", .str "authorization_bearer"), ("token", .str token)]
  | .authorizationBare token =>
    .obj [("object_type", .str "authorization_bare"), ("token", .str token)]
  | .notionApiCredentials token =>
    .obj [("object_type", .str "notion"), ("token", .str token)]
  | .slackApiCredentials token d_cookie =>
    .obj [("object_type", .str "slack"), ("token", .str token), ("d_cookie", .str d_cookie)]

/-- Function `_get_api_credential_type` of `latchkey/api_credential_store.py`: for a
dict, `str(value.get("object_type", ""))`; otherwise
`getattr(value, "object_type", "")`, which on plain JSON data is `""`. -/
def _get_api_credential_type (value : Json) : String :=
  match value with
  | .obj fields =>
    match lookupField fields "object_type" with
    | none => ""
    | some v => pyToStr v
  | _ => ""

/-- Pydantic validation of a required `str` field: present and a string, or
a validation error. -/
def requireStr (fields : List (String × Json)) (key : String) : Except String String :=
  match lookupField fields key with
  | some (.str s) => .ok s
  | some _ => .error (key ++ ": Input should be a valid string")
  | none => .error (key ++ ": Field required")

/-- Pydantic validation of the `object_type: str` field with its class
default: absent is fine (the default applies), a string is fine, anything
else is a validation error. -/
def checkObjectTypeField (fields : List (String × Json)) : Except String Unit :=
  match lookupField fields "object_type" with
  | none => .ok ()
  | some (.str _) => .ok ()
  | some _ => .error "object_type: Input should be a valid string"

/-- Pydantic validation of an `AuthorizationBearer` payload. -/
def validateAuthorizationBearer (value : Json) : Except String ApiCredentials :=
  match value with
  | .obj fields => do
    let _ ← checkObjectTypeField fields
    let token ← requireStr fields "token"
    .ok (.authorizationBearer token)
  | _ => .error "Input should be a valid dictionary"

/-- Pydantic validation of an `AuthorizationBare` payload. -/
def validateAuthorizationBare (value : Json) : Except String ApiCredentials :=
  match value with
  | .obj fields => do
    let _ ← checkObjectTypeField fields
    let token ← requireStr fields "token"
    .ok (.authorizationBare token)
  | _ => .error "Input should be a valid dictionary"

/-- Pydantic validation of a `NotionApiCredentials` payload. -/
def validateNotionApiCredentials (value : Json) : Except String ApiCredentials :=
  match value with
  | .obj fields => do
    let _ ← checkObjectTypeField fields
    let token ← requireStr fields "token"
    .ok (.notionApiCredentials token)
  | _ => .error "Input should be a valid dictionary"

/-- Pydantic validation of a `SlackApiCredentials` payload: `token` and
`d_cookie` are both required, looked up by name. -/
def validateSlackApiCredentials (value : Json) : Except String ApiCredentials :=
  match value with
  | .obj fields => do
    let _ ← checkObjectTypeField fields
    let token ← requireStr fields "token"
    let d_cookie ← requireStr fields "d_cookie"
    .ok (.slackApiCredentials token d_cookie)
  | _ => .error "Input should be a valid dictionary"

/-- The adapter `_api_credential_type_adapter.validate_python`: dispatch on the
discriminator computed by `_get_api_credential_type`; an unrecognized tag
(including the `""` produced by a missing discriminator) is a validation
error, never coerced to a default variant. -/
def validate_python (value : Json) : Except String ApiCredentials :=
  match _get_api_credential_type value with
  | "authorization_bearer" => validateAuthorizationBearer value
  | "authorization_bare" => validateAuthorizationBare value
  | "notion" => validateNotionApiCredentials value
  | "slack" => validateSlackApiCredentials value
  | tag => .error ("union_tag_invalid: " ++ tag)

/-- The recognized discriminator tags of the store's union. -/
def recognizedTags : List String := ["authorization_bearer", "authorization_bare", "notion", "slack"]

/-!
The `ApiCredentialStore` of `latchkey/api_credential_store.py`. The persisted
file is modelled as `Option (List (String × Json))`: `none` when the file
does not exist, `some doc` for the parsed top-level JSON document.
-/

/-- Method `ApiCredentialStore._load_store_data`: an absent file reads as the empty
document. -/
def _load_store_data : Option (List (String × Json)) → List (String × Json)
  | none => []
  | some doc => doc

/-- Method `ApiCredentialStore.get`: `None` when the entry is absent, otherwise the
entry decoded through the discriminated adapter (a decode failure
propagates as an error). -/
def ApiCredentialStore.get (file : Option (List (String × Json))) (service_name : String) :
    Except String (Option ApiCredentials) :=
  let data := _load_store_data file
  match lookupField data service_name with
  | none => .ok none
  | some entry => (validate_python entry).map some

/-- Method `ApiCredentialStore.save`: set the entry to the model's dump and write
the document back (the file exists afterwards). -/
def ApiCredentialStore.save (file : Option (List (String × Json))) (service_name : String)
    (api_credentials : ApiCredentials) : Option (List (String × Json)) :=
  let data := _load_store_data file
  some (dictSet data service_name api_credentials.model_dump)

/-- Method `ApiCredentialStore.delete`: `false` and no write when the entry is
absent (the file state is returned untouched), otherwise remove the entry,
write, and return `true`. -/
def ApiCredentialStore.delete (file : Option (List (String × Json))) (service_name : String) :
    Bool × Option (List (String × Json)) :=
  let data := _load_store_data file
  match lookupField data service_name with
  | none => (false, file)
  | some _ => (true, some (dictDelete data service_name))

/-!
Observed traffic. A Playwright `Request`/`Response` pair is embedded by the
parts the observers inspect: the request URL, the lower-cased
`authorization` and `cookie` request headers (absent headers are `none`),
and the response status.
-/

/-- One observed traffic event during the headful login phase. -/
structure TrafficEvent where
  url : String
  authorization : Option String
  cookie : Option String
  status : Int
deriving DecidableEq, Repr

/-- Python whitespace characters stripped by `str.strip()` (ASCII range). -/
def isPySpace (c : Char) : Bool :=
  c == ' ' || c == '\t' || c == '\n' || c == '\r' || c == Char.ofNat 11 || c == Char.ofNat 12

/-- Python `str.strip()`: drop whitespace from both ends. -/
def pyStrip (s : String) : String :=
  String.mk (((s.data.dropWhile isPySpace).reverse.dropWhile isPySpace).reverse)

/-- Python `str.lower()` on one character (ASCII range, which covers HTTP
header values). -/
def pyLowerChar (c : Char) : Char :=
  if 'A' ≤ c ∧ c ≤ 'Z' then Char.ofNat (c.toNat + 32) else c

/-- Python `str.lower()` (ASCII range). -/
def pyLower (s : String) : String := String.mk (s.data.map pyLowerChar)

/-- The `if token.lower().startswith("bearer "): token = token[7:]` step the
Slack and Notion observers apply to a captured authorization header. -/
def removeBearer (token : String) : String :=
  if pyLower (String.mk (token.data.take 7)) = "bearer " then String.mk (token.data.drop 7)
  else token

/-- Boolean list-prefix test on characters. -/
def listIsPrefixOf : List Char → List Char → Bool
  | [], _ => true
  | _ :: _, [] => false
  | a :: as, b :: bs => a == b && listIsPrefixOf as bs

/-- Python `str.startswith`: character-wise prefix test. -/
def pyStartsWith (s pre : String) : Bool := listIsPrefixOf pre.data s.data

/-- Python `pat in s` substring containment, on character lists. -/
def listHasSubstr (pat : List Char) : List Char → Bool
  | [] => listIsPrefixOf pat []
  | c :: rest => listIsPrefixOf pat (c :: rest) || listHasSubstr pat rest

/-- Python `pat in s` substring containment, on strings. -/
def strHasSubstr (s pat : String) : Bool := listHasSubstr pat.data s.data

/-- A word character for the regex `\b` boundary (`[A-Za-z0-9_]`). -/
def isWordChar (c : Char) : Bool := c.isAlphanum || c == '_'

/-- The regex search `re.search(r"\bd=([^;]+)", cookie_header)` of `Slack.on_request`:
leftmost occurrence of `d=` at a word boundary followed by at least one
non-`;` character; the capture runs to the next `;` or the end. `prev` is
the character before the current scan position. -/
def findDCookieAux : Option Char → List Char → Option String
  | prev, 'd' :: '=' :: rest =>
    let boundary := match prev with
      | none => true
      | some p => !(isWordChar p)
    let value := rest.takeWhile (fun c => c != ';')
    if boundary && !value.isEmpty then some (String.mk value)
    else findDCookieAux (some 'd') ('=' :: rest)
  | _, [ 'd'] => none
  | prev, c :: rest =>
    let _ := prev
    findDCookieAux (some c) rest
  | _, [] => none

/-- The captured `d` cookie value of `re.search(r"\bd=([^;]+)", s)`. -/
def findDCookie (s : String) : Option String := findDCookieAux none s.data

/-- The regex search `re.search(r"__Host-js_csrf=([^;]+)", cookie_header)` of
`DropboxServiceSession.on_response`: leftmost occurrence of the literal
followed by at least one non-`;` character. -/
def findCsrfAux : List Char → Option String
  | [] => none
  | c :: rest =>
    if listIsPrefixOf ("__Host-js_csrf=".data) (c :: rest) then
      let value := ((c :: rest).drop 15).takeWhile (fun ch => ch != ';')
      if value.isEmpty then findCsrfAux rest else some (String.mk value)
    else findCsrfAux rest

/-- The captured value of `re.search(r"__Host-js_csrf=([^;]+)", s)`. -/
def findCsrf (s : String) : Option String := findCsrfAux s.data

/-!
Observers. Callback-mutated per-session capture state is embedded as
explicit state threaded through a step function; a traffic sequence is
processed by folding the step function over the events in arrival order.
-/

/-- Method `SimpleServiceSession.on_response` (`latchkey/services/base.py`): once
credentials are captured every further event is ignored; otherwise the
session's extraction hook `_get_api_credentials_from_response` is tried.
The hook is a parameter, as in the source (an abstract method). -/
def SimpleServiceSession.on_response
    (getCredentials : TrafficEvent → Option ApiCredentials)
    (state : Option ApiCredentials) (response : TrafficEvent) : Option ApiCredentials :=
  match state with
  | some credentials => some credentials
  | none => getCredentials response

/-- Method `SimpleServiceSession._is_headful_login_complete`: credentials captured. -/
def SimpleServiceSession.is_headful_login_complete (state : Option ApiCredentials) : Bool :=
  state.isSome

/-- A whole observed traffic sequence processed in arrival order. -/
def SimpleServiceSession.run (getCredentials : TrafficEvent → Option ApiCredentials)
    (events : List TrafficEvent) : Option ApiCredentials :=
  events.foldl (SimpleServiceSession.on_response getCredentials) none

/-- A bearer-token capture hook for `SimpleServiceSession`, instantiating
`_get_api_credentials_from_response` with the authorization-header rule the
services use (`Notion.on_request` / `Slack.on_request` header handling): a
present, non-whitespace authorization header, with a case-insensitive
`Bearer ` prefix stripped, yields an `AuthorizationBearer`. -/
def bearerTokenCapture (response : TrafficEvent) : Option ApiCredentials :=
  match response.authorization with
  | none => none
  | some authorization =>
    if pyStrip authorization = "" then none
    else some (.authorizationBearer (removeBearer authorization))

/-- The capture state of the `Slack` observer
(`latchkey/services/slack.py`): `_captured_token` and `_captured_d_cookie`. -/
structure SlackState where
  captured_token : Option String
  captured_d_cookie : Option String
deriving DecidableEq, Repr

/-- The fresh Slack observer state. -/
def SlackState.initial : SlackState := ⟨none, none⟩

/-- The token paragraph of `Slack.on_request`
(`if self._captured_token is None:`): capture a present, non-whitespace
authorization header once, stripping a case-insensitive `Bearer ` prefix. -/
def Slack.captureToken (state : SlackState) (request : TrafficEvent) : SlackState :=
  if state.captured_token.isNone then
    match request.authorization with
    | some authorization =>
      if pyStrip authorization != "" then
        { state with captured_token := some (removeBearer authorization) }
      else state
    | none => state
  else state

/-- The `d`-cookie paragraph of `Slack.on_request`
(`if self._captured_d_cookie is None:`): capture the value matched by
`re.search(r"\bd=([^;]+)", cookie_header)` once. -/
def Slack.captureDCookie (state : SlackState) (request : TrafficEvent) : SlackState :=
  if state.captured_d_cookie.isNone then
    match request.cookie with
    | some cookieHeader =>
      match findDCookie cookieHeader with
      | some value => { state with captured_d_cookie := some value }
      | none => state
    | none => state
  else state

/-- Method `Slack.on_request`: ignore events once both fragments are captured;
ignore URLs outside the Slack API hosts; otherwise run the token paragraph
and then the `d`-cookie paragraph. -/
def Slack.on_request (state : SlackState) (request : TrafficEvent) : SlackState :=
  if state.captured_token.isSome && state.captured_d_cookie.isSome then state
  else if !(pyStartsWith request.url "https://slack.com/api/")
      && !(pyStartsWith request.url "https://edgeapi.slack.com/") then state
  else Slack.captureDCookie (Slack.captureToken state request) request

/-- Method `Slack.wait_for_login_completed`'s completion predicate: both the token
and the `d` cookie have been captured. -/
def Slack.login_completed (state : SlackState) : Bool :=
  state.captured_token.isSome && state.captured_d_cookie.isSome

/-- Method `Discord.on_request` (`latchkey/services/discord.py`): capture the raw
authorization header (no prefix stripping) of a Discord API request, once,
when present and not whitespace-only. -/
def Discord.on_request (captured_token : Option String) (request : TrafficEvent) : Option String :=
  match captured_token with
  | some token => some token
  | none =>
    if !(pyStartsWith request.url "https://discord.com/api/") then none
    else
      match request.authorization with
      | some authorization => if pyStrip authorization != "" then some authorization else none
      | none => none

/-- Method `Discord.wait_for_login_completed`'s completion predicate. -/
def Discord.login_completed (captured_token : Option String) : Bool := captured_token.isSome

/-- Method `Notion.on_request` (`latchkey/services/notion.py`): capture the
authorization header of a Notion API request, once, when present and not
whitespace-only, stripping a case-insensitive `Bearer ` prefix. -/
def Notion.on_request (captured_token : Option String) (request : TrafficEvent) : Option String :=
  match captured_token with
  | some token => some token
  | none =>
    if !(pyStartsWith request.url "https://www.notion.so/api/")
        && !(pyStartsWith request.url "https://api.notion.com/") then none
    else
      match request.authorization with
      | some authorization =>
        if pyStrip authorization != "" then some (removeBearer authorization) else none
      | none => none

/-- Method `Notion.wait_for_login_completed`'s completion predicate. -/
def Notion.login_completed (captured_token : Option String) : Bool := captured_token.isSome

/-- The capture state of `DropboxServiceSession`
(`latchkey/services/dropbox.py`): `_csrf_token`, `_cookies`,
`_is_logged_in`. -/
structure DropboxState where
  csrf_token : Option String
  cookies : Option String
  is_logged_in : Bool
deriving DecidableEq, Repr

/-- The fresh Dropbox session state. -/
def DropboxState.initial : DropboxState := ⟨none, none, false⟩

/-- Method `DropboxServiceSession.on_response`: once logged in, ignore; require a
`www.dropbox.com` request carrying a cookie header with a
`__Host-js_csrf` value and the substring `jar=`; then record the CSRF
token and cookie header and mark the session logged in. -/
def DropboxServiceSession.on_response (state : DropboxState) (response : TrafficEvent) :
    DropboxState :=
  if state.is_logged_in then state
  else if !(pyStartsWith response.url "https://www.dropbox.com/") then state
  else
    match response.cookie with
    | none => state
    | some cookieHeader =>
      match findCsrf cookieHeader with
      | none => state
      | some csrfValue =>
        if !(strHasSubstr cookieHeader "jar=") then state
        else ⟨some csrfValue, some cookieHeader, true⟩

/-- Method `DropboxServiceSession._is_headful_login_complete`. -/
def DropboxServiceSession.is_headful_login_complete (state : DropboxState) : Bool :=
  state.is_logged_in

/-- A whole observed traffic sequence processed by the Dropbox session. -/
def DropboxServiceSession.run (events : List TrafficEvent) : DropboxState :=
  events.foldl DropboxServiceSession.on_response DropboxState.initial

/-!
The login session state machine of `ServiceSession.login`
(`latchkey/services/base.py`). The headful phase — showing instructions,
navigating to the login URL, and polling `_is_headful_login_complete` —
runs inside a `try` whose only handler catches `TargetClosedError` (the
user closed the browser) and re-raises it as `LoginCancelledError`. After
the phase, `_finalize_credentials` runs; a `None` result raises
`LoginFailedError`. The browser interaction itself is a capability the
engine drives, so the headful phase is embedded by its outcome and
`_finalize_credentials` by its result.
-/

/-- Where in the headful phase a `TargetClosedError` can be raised: while
showing the instructions page, while navigating to the login URL, or while
polling for completion. -/
inductive HeadfulStage where
  | showLoginInstructions : HeadfulStage
  | gotoLoginUrl : HeadfulStage
  | waitForHeadfulLoginComplete : HeadfulStage
deriving DecidableEq, Repr

/-- The outcome of the headful login phase. -/
inductive HeadfulOutcome where
  | completed : HeadfulOutcome
  | targetClosed (stage : HeadfulStage) : HeadfulOutcome
deriving DecidableEq, Repr

/-- The result of `ServiceSession.login`: the raised exception or the
returned credentials. -/
inductive LoginResult where
  | cancelled (message : String) : LoginResult
  | failed (message : String) : LoginResult
  | success (credentials : ApiCredentials) : LoginResult
deriving DecidableEq, Repr

/-- Method `ServiceSession.login`: a `TargetClosedError` anywhere in the headful
phase becomes `LoginCancelledError`; otherwise `_finalize_credentials`
runs — an exception it raises propagates (as `LoginFailedError`, see
`BrowserFollowupServiceSession._finalize_credentials`), a `None` result
raises `LoginFailedError`, and credentials are returned. -/
def ServiceSession.login (headful : HeadfulOutcome)
    (finalize : Except String (Option ApiCredentials)) : LoginResult :=
  match headful with
  | .targetClosed _ => .cancelled "Login was cancelled because the browser was closed."
  | .completed =>
    match finalize with
    | .error message => .failed message
    | .ok none => .failed "Login failed: no credentials were extracted."
    | .ok (some credentials) => .success credentials

/-- Method `SimpleServiceSession._finalize_credentials`: simply the captured
credentials, no exceptions. -/
def SimpleServiceSession.finalize_credentials (captured : Option ApiCredentials) :
    Except String (Option ApiCredentials) :=
  .ok captured

/-- The outcome of `_perform_browser_followup`: a returned value (possibly
`None`), a raised `LoginFailedError`, or any other exception. -/
inductive FollowupOutcome where
  | returns (credentials : Option ApiCredentials) : FollowupOutcome
  | raisesLoginFailed (message : String) : FollowupOutcome
  | raisesOther (message : String) : FollowupOutcome
deriving DecidableEq, Repr

/-- Method `BrowserFollowupServiceSession._finalize_credentials`: `None` when the
persisted browser-state snapshot is missing; otherwise the follow-up's
result, with a `LoginFailedError` re-raised as is and any other exception
wrapped into a `LoginFailedError`. -/
def BrowserFollowupServiceSession.finalize_credentials (stateFileExists : Bool)
    (followup : FollowupOutcome) : Except String (Option ApiCredentials) :=
  if !stateFileExists then .ok none
  else
    match followup with
    | .returns credentials => .ok credentials
    | .raisesLoginFailed message => .error message
    | .raisesOther message => .error ("Login failed: " ++ message)

/-!
The service registry of `latchkey/registry.py`.
-/

/-- The static per-service data `Registry.get_by_url` consults: the
service's name and its ordered `base_api_urls` prefixes. -/
structure Service where
  name : String
  base_api_urls : List String
deriving DecidableEq, Repr

/-- Whether one of the service's `base_api_urls` is a prefix of the URL
(the inner loop of `Registry.get_by_url`, first prefix in order). -/
def Service.matchesUrl (service : Service) (url : String) : Bool :=
  service.base_api_urls.any (fun base_api_url => pyStartsWith url base_api_url)

/-- Method `Registry.get_by_url`: scan the registered services in order and return
the first whose prefixes match; `None` when no prefix of any service
matches. -/
def Registry.get_by_url : List Service → String → Option Service
  | [], _ => none
  | service :: rest, url =>
    if service.matchesUrl url then some service else Registry.get_by_url rest url

/-!
Concrete fixtures used by the claims' concrete scenarios.
-/

/-- The unauthenticated request of the three-request bearer scenario. -/
def unauthenticatedRequest : TrafficEvent :=
  ⟨"https://slack.com/api/client.boot", none, none, 200⟩

/-- The request carrying `Authorization: Bearer abc`. -/
def bearerAbcRequest : TrafficEvent :=
  ⟨"https://slack.com/api/client.boot", some "Bearer abc", none, 200⟩

/-- A third request carrying a different bearer token. -/
def differentBearerRequest : TrafficEvent :=
  ⟨"https://slack.com/api/client.boot", some "Bearer zzz", none, 200⟩

/-- A logged-in Dropbox traffic event: a `www.dropbox.com` request whose
cookie header carries a `__Host-js_csrf` value and `jar=anything`. -/
def jarCookieEvent : TrafficEvent :=
  ⟨"https://www.dropbox.com/home", none, some "__Host-js_csrf=tok123; jar=anything", 200⟩

/-!
Helper lemmas about the embedded dict operations and the discriminated
decoder.
-/

/-- After `data[key] = value`, looking up `key` finds `value`. -/
lemma lookupField_dictSet_self (data : List (String × Json)) (key : String) (value : Json) :
    lookupField (dictSet data key value) key = some value := by
  induction data with
  | nil => simp [dictSet, lookupField]
  | cons kv rest ih =>
    obtain ⟨k, v⟩ := kv
    by_cases h : k = key <;> simp [dictSet, lookupField, h, ih]

/-- After `data[key] = value`, every other key's binding is unchanged. -/
lemma lookupField_dictSet_ne (data : List (String × Json)) (key other : String) (value : Json)
    (h : other ≠ key) :
    lookupField (dictSet data key value) other = lookupField data other := by
  have h' : ¬(key = other) := fun hh => h hh.symm
  induction data with
  | nil => simp [dictSet, lookupField, h']
  | cons kv rest ih =>
    obtain ⟨k, v⟩ := kv
    by_cases hk : k = key
    · subst hk
      simp [dictSet, lookupField, h']
    · simp [dictSet, lookupField, hk, ih]

/-- After `del data[key]`, looking up `key` finds nothing. -/
lemma lookupField_dictDelete_self (data : List (String × Json)) (key : String) :
    lookupField (dictDelete data key) key = none := by
  induction data with
  | nil => simp [dictDelete, lookupField]
  | cons kv rest ih =>
    obtain ⟨k, v⟩ := kv
    by_cases h : k = key
    · subst h
      simpa [dictDelete, List.filter_cons] using ih
    · simpa [dictDelete, lookupField, List.filter_cons, h, bne_iff_ne] using ih

/-- After `del data[key]`, every other key's binding is unchanged. -/
lemma lookupField_dictDelete_ne (data : List (String × Json)) (key other : String)
    (h : other ≠ key) :
    lookupField (dictDelete data key) other = lookupField data other := by
  induction data with
  | nil => simp [dictDelete, lookupField]
  | cons kv rest ih =>
    obtain ⟨k, v⟩ := kv
    by_cases hk : k = key
    · subst hk
      have hko : ¬(k = other) := fun hh => h hh.symm
      simp only [dictDelete, lookupField, List.filter_cons] at ih ⊢
      simp [lookupField, hko, ih]
    · by_cases ho : k = other
      · subst ho
        simp [dictDelete, lookupField, List.filter_cons, hk, bne_iff_ne]
      · simp only [dictDelete, List.filter_cons] at ih ⊢
        simp [lookupField, hk, ho, bne_iff_ne, ih]

/-- Decoding through the discriminated adapter is a left inverse of
`model_dump`, for every variant. -/
lemma validate_python_model_dump (m : ApiCredentials) :
    validate_python m.model_dump = .ok m := by
  cases m <;> rfl

/-- An entry whose discriminator is not a recognized tag fails to decode. -/
lemma validate_python_unknown_tag (value : Json)
    (h : _get_api_credential_type value ∉ recognizedTags) :
    ∃ e, validate_python value = .error e := by
  unfold validate_python
  split
  next heq => exact absurd (by rw [heq]; decide) h
  next heq => exact absurd (by rw [heq]; decide) h
  next heq => exact absurd (by rw [heq]; decide) h
  next heq => exact absurd (by rw [heq]; decide) h
  next => exact ⟨_, rfl⟩

/-- C4. Method `ApiCredentialStore.get(service_name)` returns none when the
store file does not exist or the document has no entry for the service;
when an entry exists whose `object_type` discriminator is missing or not
one of the recognized tags (`authorization_bearer`, `authorization_bare`,
`notion`, `slack`), `get` fails with a decode error — it never silently
coerces the entry to a default variant and never treats it as missing. -/
theorem C4_get_absent_none_unknown_tag_fails
    (file : Option (List (String × Json))) (service_name : String) :
    ApiCredentialStore.get none service_name = .ok none
    ∧ (lookupField (_load_store_data file) service_name = none →
        ApiCredentialStore.get file service_name = .ok none)
    ∧ (∀ entry, lookupField (_load_store_data file) service_name = some entry →
        _get_api_credential_type entry ∉ recognizedTags →
        ∃ e, ApiCredentialStore.get file service_name = .error e) := by
  refine ⟨rfl, ?_, ?_⟩
  · intro h
    unfold ApiCredentialStore.get
    simp [h]
  · intro entry hlook htag
    obtain ⟨e, he⟩ := validate_python_unknown_tag entry htag
    refine ⟨e, ?_⟩
    unfold ApiCredentialStore.get
    simp [hlook, he, Except.map]

/-- Witness for C4: a store whose `slack` entry carries the unrecognized
discriminator `mystery` fails to decode, and a missing entry reads as
none. -/
theorem C4_witness :
    (∃ e, ApiCredentialStore.get
        (some [("slack", Json.obj [("object_type", Json.str "mystery"), ("token", Json.str "t")])])
        "slack" = .error e)
    ∧ ApiCredentialStore.get
        (some [("slack", Json.obj [("object_type", Json.str "mystery"), ("token", Json.str "t")])])
        "github" = .ok none :=
  ⟨(C4_get_absent_none_unknown_tag_fails
      (some [("slack", Json.obj [("object_type", Json.str "mystery"), ("token", Json.str "t")])])
      "slack").2.2 (Json.obj [("object_type", Json.str "mystery"), ("token", Json.str "t")])
      rfl (by decide),
   (C4_get_absent_none_unknown_tag_fails
      (some [("slack", Json.obj [("object_type", Json.str "mystery"), ("token", Json.str "t")])])
      "github").2.1 rfl⟩

/-- C5. For every supported credential variant, decoding through the
store's discriminated adapter is a left inverse of encoding: validating
`model_dump` recovers an equal model; the fields are recovered by name,
not position (decoding an object with re-ordered fields still recovers the
Slack composite, `d_cookie` included). -/
theorem C5_decode_encode_roundtrip :
    (∀ m : ApiCredentials, validate_python m.model_dump = .ok m)
    ∧ (∀ token d_cookie : String,
        validate_python (.obj [("d_cookie", .str d_cookie), ("object_type", .str "slack"),
          ("token", .str token)])
          = .ok (.slackApiCredentials token d_cookie)) := by
  refine ⟨validate_python_model_dump, ?_⟩
  intro token d_cookie
  rfl

/-- C6. Operation `save(A, m)` followed by `get(A)` returns a model equal to `m`,
and `save(A, m)` leaves the binding of every other top-level key — entries
for other services and unknown keys alike — unchanged verbatim. -/
theorem C6_save_then_get
    (file : Option (List (String × Json))) (service_name other : String) (m : ApiCredentials)
    (h : other ≠ service_name) :
    ApiCredentialStore.get (ApiCredentialStore.save file service_name m) service_name
      = .ok (some m)
    ∧ lookupField (_load_store_data (ApiCredentialStore.save file service_name m)) other
        = lookupField (_load_store_data file) other := by
  constructor
  · unfold ApiCredentialStore.get ApiCredentialStore.save
    simp [_load_store_data, lookupField_dictSet_self, validate_python_model_dump, Except.map]
  · unfold ApiCredentialStore.save
    simp [_load_store_data, lookupField_dictSet_ne _ _ _ _ h]

/-- Witness for C6: saving Slack credentials next to an unknown key
round-trips and leaves the unknown key's value verbatim. -/
theorem C6_witness :
    ApiCredentialStore.get
      (ApiCredentialStore.save (some [("custom", Json.num 7)]) "slack"
        (.slackApiCredentials "tok" "dck")) "slack" = .ok (some (.slackApiCredentials "tok" "dck"))
    ∧ lookupField
        (_load_store_data (ApiCredentialStore.save (some [("custom", Json.num 7)]) "slack"
          (.slackApiCredentials "tok" "dck"))) "custom"
        = lookupField (_load_store_data (some [("custom", Json.num 7)])) "custom" :=
  C6_save_then_get (some [("custom", Json.num 7)]) "slack" "custom"
    (.slackApiCredentials "tok" "dck") (by decide)

/-- C7. Operation `delete(A)` on an absent key returns false and performs no
write (the persisted file state is returned untouched); on a present key
it returns true, removes exactly the entry for `A`, and leaves every other
top-level key's binding unchanged. -/
theorem C7_delete_spec
    (file : Option (List (String × Json))) (service_name other : String)
    (h : other ≠ service_name) :
    (lookupField (_load_store_data file) service_name = none →
      ApiCredentialStore.delete file service_name = (false, file))
    ∧ (∀ entry, lookupField (_load_store_data file) service_name = some entry →
        (ApiCredentialStore.delete file service_name).1 = true
        ∧ lookupField (_load_store_data (ApiCredentialStore.delete file service_name).2)
            service_name = none
        ∧ lookupField (_load_store_data (ApiCredentialStore.delete file service_name).2) other
            = lookupField (_load_store_data file) other) := by
  constructor
  · intro hnone
    unfold ApiCredentialStore.delete
    simp [hnone]
  · intro entry hsome
    unfold ApiCredentialStore.delete
    simp only [hsome]
    refine ⟨by trivial, ?_, ?_⟩
    · simp [_load_store_data, lookupField_dictDelete_self]
    · simp [_load_store_data, lookupField_dictDelete_ne _ _ _ h]

/-- Witness for C7: deleting a missing key from an absent file reports
not-found without writing; deleting a present key removes it and keeps the
neighbouring unknown key verbatim. -/
theorem C7_witness :
    ApiCredentialStore.delete none "slack" = (false, none)
    ∧ ((ApiCredentialStore.delete (some [("slack", Json.str "x"), ("custom", Json.num 3)])
          "slack").1 = true
        ∧ lookupField (_load_store_data (ApiCredentialStore.delete
            (some [("slack", Json.str "x"), ("custom", Json.num 3)]) "slack").2) "slack" = none
        ∧ lookupField (_load_store_data (ApiCredentialStore.delete
            (some [("slack", Json.str "x"), ("custom", Json.num 3)]) "slack").2) "custom"
            = lookupField (_load_store_data (some [("slack", Json.str "x"), ("custom", Json.num 3)]))
                "custom") :=
  ⟨(C7_delete_spec none "slack" "custom" (by decide)).1 rfl,
   (C7_delete_spec (some [("slack", Json.str "x"), ("custom", Json.num 3)]) "slack" "custom"
      (by decide)).2 (Json.str "x") rfl⟩

/-- C2. A `TargetClosedError` raised at any point of the headful phase
(showing instructions, navigating to the login URL, or polling for
completion) makes `ServiceSession.login` raise `LoginCancelledError` — the
CANCELLED outcome — and never `LoginFailedError`, whatever finalization
would have produced. -/
theorem C2_browser_closed_yields_cancelled_never_failed
    (stage : HeadfulStage) (finalize : Except String (Option ApiCredentials)) :
    ServiceSession.login (.targetClosed stage) finalize
      = .cancelled "Login was cancelled because the browser was closed."
    ∧ ∀ message, ServiceSession.login (.targetClosed stage) finalize ≠ .failed message :=
  ⟨rfl, fun _ h => LoginResult.noConfusion h⟩

/-- Witness for C2: closing the browser while navigating to the login URL
cancels the login and is not reported as a failure. -/
theorem C2_witness :
    ServiceSession.login (.targetClosed .gotoLoginUrl) (.ok none)
      = .cancelled "Login was cancelled because the browser was closed."
    ∧ ServiceSession.login (.targetClosed .gotoLoginUrl) (.ok none)
      ≠ .failed "Login failed: no credentials were extracted." :=
  ⟨(C2_browser_closed_yields_cancelled_never_failed .gotoLoginUrl (.ok none)).1,
   (C2_browser_closed_yields_cancelled_never_failed .gotoLoginUrl (.ok none)).2 _⟩

/-- C3. When the headful phase completes but finalization produces no
credential — the follow-up automation returns `None`, or the persisted
browser-state snapshot is missing — `ServiceSession.login` raises
`LoginFailedError` ("login completed but no credentials extracted");
`login` returns credentials only when finalization produced exactly
them. -/
theorem C3_no_credentials_yields_failed :
    (∀ finalize : Except String (Option ApiCredentials), finalize = .ok none →
      ServiceSession.login .completed finalize
        = .failed "Login failed: no credentials were extracted.")
    ∧ (∀ followup, BrowserFollowupServiceSession.finalize_credentials false followup = .ok none)
    ∧ (∀ stateFileExists, ServiceSession.login .completed
        (BrowserFollowupServiceSession.finalize_credentials stateFileExists (.returns none))
        = .failed "Login failed: no credentials were extracted.")
    ∧ (∀ finalize credentials, ServiceSession.login .completed finalize = .success credentials →
        finalize = .ok (some credentials)) := by
  refine ⟨?_, ?_, ?_, ?_⟩
  · rintro finalize rfl
    rfl
  · intro followup
    rfl
  · intro stateFileExists
    cases stateFileExists <;> rfl
  · intro finalize credentials h
    cases finalize with
    | error e => exact absurd h (by simp [ServiceSession.login])
    | ok o =>
      cases o with
      | none => exact absurd h (by simp [ServiceSession.login])
      | some c =>
        simp only [ServiceSession.login, LoginResult.success.injEq] at h
        rw [h]

/-- Witness for C3: a completed headful phase whose follow-up returns no
credential, and one whose browser-state snapshot is missing, both fail. -/
theorem C3_witness :
    ServiceSession.login .completed
      (BrowserFollowupServiceSession.finalize_credentials true (.returns none))
      = .failed "Login failed: no credentials were extracted."
    ∧ BrowserFollowupServiceSession.finalize_credentials false
        (.returns (some (.authorizationBearer "tok"))) = .ok none :=
  ⟨(C3_no_credentials_yields_failed).2.2.1 true,
   (C3_no_credentials_yields_failed).2.1 (.returns (some (.authorizationBearer "tok")))⟩

set_option maxRecDepth 8192 in
/-- C8. Method `Registry.get_by_url` returns the first registered service whose
URL prefixes match (scanning services in registration order), and none when
no prefix matches; with service `a` (prefix `https://x.com/api/`)
registered before `b` (prefix `https://x.com/api/v2/`), the URL
`https://x.com/api/v2/thing` resolves to `a` — first-registered-wins on
overlapping prefixes. -/
theorem C8_get_by_url_first_registered_wins
    (services : List Service) (url : String) (s : Service) :
    (Registry.get_by_url services url = none ↔ ∀ t ∈ services, t.matchesUrl url = false)
    ∧ (Registry.get_by_url services url = some s →
        s.matchesUrl url = true
        ∧ ∃ pre suf, services = pre ++ s :: suf ∧ ∀ t ∈ pre, t.matchesUrl url = false)
    ∧ Registry.get_by_url [⟨"a", ["https://x.com/api/"]⟩, ⟨"b", ["https://x.com/api/v2/"]⟩]
        "https://x.com/api/v2/thing" = some ⟨"a", ["https://x.com/api/"]⟩ := by
  refine ⟨?_, ?_, by decide⟩
  · induction services with
    | nil => simp [Registry.get_by_url]
    | cons t rest ih =>
      by_cases h : t.matchesUrl url = true
      · simp [Registry.get_by_url, h]
      · simp only [Bool.not_eq_true] at h
        simp [Registry.get_by_url, h, ih]
  · induction services with
    | nil =>
      intro hsome
      simp [Registry.get_by_url] at hsome
    | cons t rest ih =>
      intro hsome
      by_cases h : t.matchesUrl url = true
      · rw [Registry.get_by_url, if_pos h] at hsome
        obtain rfl : t = s := by injection hsome
        exact ⟨h, [], rest, rfl, by simp⟩
      · simp only [Bool.not_eq_true] at h
        rw [Registry.get_by_url, if_neg (by simp [h])] at hsome
        obtain ⟨hm, pre, suf, heq, hpre⟩ := ih hsome
        refine ⟨hm, t :: pre, suf, by rw [heq]; rfl, ?_⟩
        intro u hu
        rcases List.mem_cons.mp hu with rfl | hmem
        · exact h
        · exact hpre u hmem

/-- Witness for C8: the overlapping-prefix example itself, recovered through
the first-match characterization. -/
theorem C8_witness :
    Registry.get_by_url [⟨"a", ["https://x.com/api/"]⟩, ⟨"b", ["https://x.com/api/v2/"]⟩]
        "https://x.com/api/v2/thing" = some ⟨"a", ["https://x.com/api/"]⟩
    ∧ Service.matchesUrl ⟨"a", ["https://x.com/api/"]⟩ "https://x.com/api/v2/thing" = true :=
  ⟨(C8_get_by_url_first_registered_wins [] "" ⟨"", []⟩).2.2,
   ((C8_get_by_url_first_registered_wins
      [⟨"a", ["https://x.com/api/"]⟩, ⟨"b", ["https://x.com/api/v2/"]⟩]
      "https://x.com/api/v2/thing" ⟨"a", ["https://x.com/api/"]⟩).2.1
      (C8_get_by_url_first_registered_wins [] "" ⟨"", []⟩).2.2).1⟩

/-!
Lemmas about the Slack capture paragraphs.
-/

/-- The token paragraph never touches the `d` cookie. -/
lemma slack_captureToken_d_cookie (st : SlackState) (e : TrafficEvent) :
    (Slack.captureToken st e).captured_d_cookie = st.captured_d_cookie := by
  unfold Slack.captureToken
  split
  · split
    · split <;> rfl
    · rfl
  · rfl

/-- The `d`-cookie paragraph never touches the token. -/
lemma slack_captureDCookie_token (st : SlackState) (e : TrafficEvent) :
    (Slack.captureDCookie st e).captured_token = st.captured_token := by
  unfold Slack.captureDCookie
  split
  · split
    · split <;> rfl
    · rfl
  · rfl

/-- Once a token is captured the token paragraph is a no-op. -/
lemma slack_captureToken_of_some (st : SlackState) (e : TrafficEvent) (t : String)
    (h : st.captured_token = some t) : Slack.captureToken st e = st := by
  unfold Slack.captureToken
  simp [h]

/-- Once a `d` cookie is captured the `d`-cookie paragraph is a no-op. -/
lemma slack_captureDCookie_of_some (st : SlackState) (e : TrafficEvent) (d : String)
    (h : st.captured_d_cookie = some d) : Slack.captureDCookie st e = st := by
  unfold Slack.captureDCookie
  simp [h]

/-- Once `Slack.on_request` has captured a token, every later event leaves
it unchanged. -/
lemma slack_token_preserved (st : SlackState) (e : TrafficEvent) (t : String)
    (h : st.captured_token = some t) :
    (Slack.on_request st e).captured_token = some t := by
  unfold Slack.on_request
  split
  · exact h
  · split
    · exact h
    · rw [slack_captureDCookie_token, slack_captureToken_of_some st e t h]
      exact h

/-- Once `Slack.on_request` has captured a `d` cookie, every later event
leaves it unchanged. -/
lemma slack_d_cookie_preserved (st : SlackState) (e : TrafficEvent) (d : String)
    (h : st.captured_d_cookie = some d) :
    (Slack.on_request st e).captured_d_cookie = some d := by
  unfold Slack.on_request
  split
  · exact h
  · split
    · exact h
    · rw [slack_captureDCookie_of_some _ e d, slack_captureToken_d_cookie]
      · exact h
      · rw [slack_captureToken_d_cookie]
        exact h

/-- C1. For `SimpleServiceSession` and the per-service capture
callbacks, the first event from which a credential fragment is extracted
fixes the captured value: every later `on_response` / `on_request` call
leaves the captured credential unchanged (first-writer-wins), and
`_is_headful_login_complete` holds exactly when a credential has been
captured. For the three-request sequence (unauthenticated, then
`Authorization: Bearer abc`, then a different bearer token), a
`SimpleServiceSession` configured for bearer-token capture is complete
after the second request and retains `abc` despite the third. -/
theorem C1_first_writer_wins
    (getCredentials : TrafficEvent → Option ApiCredentials)
    (c : ApiCredentials) (st : SlackState) (e : TrafficEvent) (t d : String) :
    (SimpleServiceSession.on_response getCredentials (some c) e = some c)
    ∧ (∀ s, SimpleServiceSession.is_headful_login_complete s = true ↔ s ≠ none)
    ∧ (st.captured_token = some t → (Slack.on_request st e).captured_token = some t)
    ∧ (st.captured_d_cookie = some d → (Slack.on_request st e).captured_d_cookie = some d)
    ∧ (SimpleServiceSession.run bearerTokenCapture [unauthenticatedRequest, bearerAbcRequest]
        = some (.authorizationBearer "abc"))
    ∧ (SimpleServiceSession.is_headful_login_complete
        (SimpleServiceSession.run bearerTokenCapture [unauthenticatedRequest, bearerAbcRequest])
        = true)
    ∧ (SimpleServiceSession.run bearerTokenCapture
        [unauthenticatedRequest, bearerAbcRequest, differentBearerRequest]
        = some (.authorizationBearer "abc")) := by
  refine ⟨rfl, ?_, slack_token_preserved st e t, slack_d_cookie_preserved st e d,
    by decide, by decide, by decide⟩
  intro s
  cases s <;> simp [SimpleServiceSession.is_headful_login_complete]

/-- Witness for C1: a Slack observer state that has already captured the
token `abc` keeps it across a request carrying a different bearer token. -/
theorem C1_witness :
    (Slack.on_request ⟨some "abc", none⟩ differentBearerRequest).captured_token = some "abc"
    ∧ SimpleServiceSession.run bearerTokenCapture
        [unauthenticatedRequest, bearerAbcRequest, differentBearerRequest]
        = some (.authorizationBearer "abc") :=
  ⟨(C1_first_writer_wins bearerTokenCapture (.authorizationBearer "abc")
      ⟨some "abc", none⟩ differentBearerRequest "abc" "d").2.2.1 rfl,
   (C1_first_writer_wins bearerTokenCapture (.authorizationBearer "abc")
      ⟨some "abc", none⟩ differentBearerRequest "abc" "d").2.2.2.2.2.2⟩

/-- An event whose cookie header (when present) does not contain the
substring `jar=` leaves the Dropbox logged-in flag unchanged. -/
lemma dropbox_step_no_jar (st : DropboxState) (e : TrafficEvent)
    (h : ∀ ck, e.cookie = some ck → strHasSubstr ck "jar=" = false) :
    (DropboxServiceSession.on_response st e).is_logged_in = st.is_logged_in := by
  unfold DropboxServiceSession.on_response
  split
  · rfl
  · split
    · rfl
    · split
      · rfl
      next ck hck =>
        split
        · rfl
        · split
          · rfl
          next hjar =>
            rw [h ck hck] at hjar
            simp at hjar

/-- Over a whole traffic sequence with no `jar=` cookie, the Dropbox
logged-in flag never changes. -/
lemma dropbox_run_no_jar (events : List TrafficEvent) (st : DropboxState)
    (h : ∀ e ∈ events, ∀ ck, e.cookie = some ck → strHasSubstr ck "jar=" = false) :
    (events.foldl DropboxServiceSession.on_response st).is_logged_in = st.is_logged_in := by
  induction events generalizing st with
  | nil => rfl
  | cons e rest ih =>
    rw [List.foldl_cons, ih _ (fun x hx => h x (List.mem_cons_of_mem e hx)),
      dropbox_step_no_jar st e (h e (List.mem_cons_self e rest))]

/-- C9. The login-only Dropbox session, whose completion indicator is
"cookie `jar` present", reports incomplete after any traffic sequence none
of whose cookie headers contains `jar=`, and reports complete for a
traffic event carrying `jar=anything` in its cookie header (on a
`www.dropbox.com` request that also carries the `__Host-js_csrf` cookie the
session records). -/
theorem C9_dropbox_jar_cookie_indicator :
    (∀ events : List TrafficEvent,
      (∀ e ∈ events, ∀ ck, e.cookie = some ck → strHasSubstr ck "jar=" = false) →
      DropboxServiceSession.is_headful_login_complete (DropboxServiceSession.run events) = false)
    ∧ DropboxServiceSession.is_headful_login_complete
        (DropboxServiceSession.on_response DropboxState.initial jarCookieEvent) = true := by
  constructor
  · intro events h
    unfold DropboxServiceSession.is_headful_login_complete DropboxServiceSession.run
    rw [dropbox_run_no_jar events DropboxState.initial h]
    rfl
  · decide

/-- Witness for C9: a `www.dropbox.com` event with a `__Host-js_csrf`
cookie but no `jar` cookie leaves the session incomplete, while
`jarCookieEvent` completes it. -/
theorem C9_witness :
    DropboxServiceSession.is_headful_login_complete (DropboxServiceSession.run
      [⟨"https://www.dropbox.com/login", none, some "__Host-js_csrf=tok123; locale=en", 200⟩])
      = false
    ∧ DropboxServiceSession.is_headful_login_complete
        (DropboxServiceSession.on_response DropboxState.initial jarCookieEvent) = true :=
  ⟨C9_dropbox_jar_cookie_indicator.1
      [⟨"https://www.dropbox.com/login", none, some "__Host-js_csrf=tok123; locale=en", 200⟩]
      (by decide),
   C9_dropbox_jar_cookie_indicator.2⟩

/-- The event's authorization header is absent, empty, or whitespace-only
(`authorization is None or authorization.strip() == ""`). -/
def noUsableAuthorization (e : TrafficEvent) : Prop :=
  e.authorization = none ∨ ∀ a, e.authorization = some a → pyStrip a = ""

/-- Under `noUsableAuthorization`, the Slack token paragraph is a no-op. -/
lemma slack_captureToken_no_auth (st : SlackState) (e : TrafficEvent)
    (h : noUsableAuthorization e) : Slack.captureToken st e = st := by
  unfold Slack.captureToken
  split
  · split
    next a ha =>
      rcases h with h | h
      · rw [h] at ha
        cases ha
      · rw [h a ha]
        simp
    · rfl
  · rfl

/-- If the Slack token paragraph captures a token from an event, that event
carried a non-whitespace authorization header and the token is its value
with any `Bearer ` prefix stripped. -/
lemma slack_captureToken_characterization (st : SlackState) (e : TrafficEvent) (t : String)
    (h0 : st.captured_token = none)
    (h : (Slack.captureToken st e).captured_token = some t) :
    ∃ a, e.authorization = some a ∧ pyStrip a ≠ "" ∧ t = removeBearer a := by
  unfold Slack.captureToken at h
  rw [h0] at h
  simp only [Option.isNone_none, if_true] at h
  split at h
  next a ha =>
    split at h
    next hstrip =>
      refine ⟨a, ha, by simpa using hstrip, ?_⟩
      simp at h
      exact h.symm
    next hstrip =>
      rw [h0] at h
      cases h
  next ha =>
    rw [h0] at h
    cases h

/-- Under `noUsableAuthorization`, `Discord.on_request` is a no-op. -/
lemma discord_no_auth (cap : Option String) (e : TrafficEvent)
    (h : noUsableAuthorization e) : Discord.on_request cap e = cap := by
  cases cap with
  | some t => rfl
  | none =>
    simp only [Discord.on_request]
    split
    · rfl
    · cases hauth : e.authorization with
      | none => rfl
      | some a =>
        rcases h with h | h
        · rw [h] at hauth
          cases hauth
        · simp [h a hauth]

/-- Under `noUsableAuthorization`, `Notion.on_request` is a no-op. -/
lemma notion_no_auth (cap : Option String) (e : TrafficEvent)
    (h : noUsableAuthorization e) : Notion.on_request cap e = cap := by
  cases cap with
  | some t => rfl
  | none =>
    simp only [Notion.on_request]
    split
    · rfl
    · cases hauth : e.authorization with
      | none => rfl
      | some a =>
        rcases h with h | h
        · rw [h] at hauth
          cases hauth
        · simp [h a hauth]

/-- Under `noUsableAuthorization`, `Slack.on_request` leaves the captured
token unchanged. -/
lemma slack_no_auth_token (st : SlackState) (e : TrafficEvent)
    (h : noUsableAuthorization e) :
    (Slack.on_request st e).captured_token = st.captured_token := by
  unfold Slack.on_request
  split
  · rfl
  · split
    · rfl
    · rw [slack_captureDCookie_token, slack_captureToken_no_auth st e h]

/-- A token captured by `Discord.on_request` came from a present,
non-whitespace authorization header, verbatim. -/
lemma discord_capture_characterization (e : TrafficEvent) (t : String)
    (h : Discord.on_request none e = some t) :
    ∃ a, e.authorization = some a ∧ pyStrip a ≠ "" ∧ t = a := by
  simp only [Discord.on_request] at h
  split at h
  · cases h
  · cases hauth : e.authorization with
    | none =>
      rw [hauth] at h
      cases h
    | some a =>
      rw [hauth] at h
      by_cases hstrip : pyStrip a = ""
      · simp [hstrip] at h
      · simp [bne_iff_ne, hstrip] at h
        exact ⟨a, rfl, hstrip, h.symm⟩

/-- A token captured by `Notion.on_request` came from a present,
non-whitespace authorization header, with any `Bearer ` prefix stripped. -/
lemma notion_capture_characterization (e : TrafficEvent) (t : String)
    (h : Notion.on_request none e = some t) :
    ∃ a, e.authorization = some a ∧ pyStrip a ≠ "" ∧ t = removeBearer a := by
  simp only [Notion.on_request] at h
  split at h
  · cases h
  · cases hauth : e.authorization with
    | none =>
      rw [hauth] at h
      cases h
    | some a =>
      rw [hauth] at h
      by_cases hstrip : pyStrip a = ""
      · simp [hstrip] at h
      · simp [bne_iff_ne, hstrip] at h
        exact ⟨a, rfl, hstrip, h.symm⟩

/-- A token captured by `Slack.on_request` came from a present,
non-whitespace authorization header, with any `Bearer ` prefix stripped. -/
lemma slack_capture_characterization (st : SlackState) (e : TrafficEvent) (t : String)
    (h0 : st.captured_token = none)
    (h : (Slack.on_request st e).captured_token = some t) :
    ∃ a, e.authorization = some a ∧ pyStrip a ≠ "" ∧ t = removeBearer a := by
  unfold Slack.on_request at h
  split at h
  · rw [h0] at h
    cases h
  · split at h
    · rw [h0] at h
      cases h
    · rw [slack_captureDCookie_token] at h
      exact slack_captureToken_characterization st e t h0 h

/-- C10. For the authorization-header-capturing observers (Discord,
Notion, Slack), an event whose authorization header is absent, empty, or
whitespace-only never captures a token and never makes the login-complete
predicate true; a captured fragment always came from a present,
non-whitespace authorization value, with a leading case-insensitive
`Bearer ` prefix stripped where the service does so (Notion, Slack) and
taken verbatim where it does not (Discord). -/
theorem C10_whitespace_authorization_never_captured
    (cap : Option String) (st : SlackState) (e : TrafficEvent) (t : String) :
    (noUsableAuthorization e → Discord.on_request cap e = cap)
    ∧ (noUsableAuthorization e → Notion.on_request cap e = cap)
    ∧ (noUsableAuthorization e → (Slack.on_request st e).captured_token = st.captured_token)
    ∧ (noUsableAuthorization e → Discord.login_completed (Discord.on_request none e) = false)
    ∧ (noUsableAuthorization e → Notion.login_completed (Notion.on_request none e) = false)
    ∧ (noUsableAuthorization e → st.captured_token = none →
        Slack.login_completed (Slack.on_request st e) = false)
    ∧ (Discord.on_request none e = some t →
        ∃ a, e.authorization = some a ∧ pyStrip a ≠ "" ∧ t = a)
    ∧ (Notion.on_request none e = some t →
        ∃ a, e.authorization = some a ∧ pyStrip a ≠ "" ∧ t = removeBearer a)
    ∧ (st.captured_token = none → (Slack.on_request st e).captured_token = some t →
        ∃ a, e.authorization = some a ∧ pyStrip a ≠ "" ∧ t = removeBearer a) := by
  refine ⟨discord_no_auth cap e, notion_no_auth cap e, slack_no_auth_token st e,
    ?_, ?_, ?_, discord_capture_characterization e t, notion_capture_characterization e t,
    slack_capture_characterization st e t⟩
  · intro h
    rw [discord_no_auth none e h]
    rfl
  · intro h
    rw [notion_no_auth none e h]
    rfl
  · intro h h0
    unfold Slack.login_completed
    rw [slack_no_auth_token st e h, h0]
    rfl

/-- Witness for C10: a Discord API request carrying the whitespace-only
authorization header `"   "` captures nothing and leaves the observers
incomplete. -/
theorem C10_witness :
    Discord.on_request none ⟨"https://discord.com/api/v9/login", some "   ", none, 200⟩ = none
    ∧ Notion.on_request none ⟨"https://discord.com/api/v9/login", some "   ", none, 200⟩ = none
    ∧ Slack.login_completed (Slack.on_request SlackState.initial
        ⟨"https://discord.com/api/v9/login", some "   ", none, 200⟩) = false :=
  ⟨(C10_whitespace_authorization_never_captured none SlackState.initial
      ⟨"https://discord.com/api/v9/login", some "   ", none, 200⟩ "t").1
      (Or.inr (fun a ha => by cases ha; decide)),
   (C10_whitespace_authorization_never_captured none SlackState.initial
      ⟨"https://discord.com/api/v9/login", some "   ", none, 200⟩ "t").2.1
      (Or.inr (fun a ha => by cases ha; decide)),
   (C10_whitespace_authorization_never_captured none SlackState.initial
      ⟨"https://discord.com/api/v9/login", some "   ", none, 200⟩ "t").2.2.2.2.2.1
      (Or.inr (fun a ha => by cases ha; decide)) rfl⟩

end Latchkey
